import Mathlib

/-!
Verification development for the mcp-obs Python server SDK.

We shallowly embed the two cores of the SDK:
* the circuit-breaker-guarded telemetry exporter
  (`mcp_obs_server/telemetry/otlp_exporter.py`), and
* the OAuth bearer-token authentication middleware
  (`mcp_obs_server/oauth_validator.py`, `oauth_middleware.py`,
  `transport_adapters.py`, `fastmcp_integration.py`).

Python exceptions become `Except` values, Python `None`-able strings become
`Option String`, dictionaries become association lists, and wall-clock time
becomes an explicit `Int` parameter (milliseconds).  Python truthiness of
strings and lists is modelled explicitly.
-/

/-! ## Python semantics helpers -/

/-- Python truthiness of an optional string: `None` and `""` are falsy. -/
def strTruthy : Option String → Bool
  | some s => s ≠ ""
  | none => false

/-- Python `a or b` for two optional strings (`None` and `""` are falsy). -/
def pyOrStr (a b : Option String) : Option String :=
  if strTruthy a then a else b

/-- Python `a or d` where `d` is a non-optional default string. -/
def pyStrOr (a : Option String) (d : String) : String :=
  match a with
  | some s => if s = "" then d else s
  | none => d

/-- Python truthiness of an optional list: `None` and `[]` are falsy. -/
def listTruthy {α : Type} : Option (List α) → Bool
  | some l => !l.isEmpty
  | none => false

/-- Python whitespace characters recognised by `str.split()` and
`str.strip()`. -/
def pyIsSpace (c : Char) : Bool :=
  c = ' ' ∨ c = '\t' ∨ c = '\n' ∨ c = '\r' ∨ c = Char.ofNat 11 ∨ c = Char.ofNat 12

/-- Does the first character list start with the second?  (Character-level
implementation of Python `str.startswith`.) -/
def pyStartsWithList : List Char → List Char → Bool
  | [], _ => true
  | _ :: _, [] => false
  | c :: cs, d :: ds => c = d && pyStartsWithList cs ds

/-- Python `s.startswith(pre)`. -/
def pyStartsWith (s pre : String) : Bool :=
  pyStartsWithList pre.data s.data

/-- Python character slice `s[n:]`. -/
def pyDrop (s : String) (n : Nat) : String :=
  String.mk (s.data.drop n)

/-- Split a character list at every character satisfying `p`, keeping
empty pieces (the behaviour of Python `str.split(sep)` for a one-character
separator, with `p` matching the separator). -/
def splitPredAux (p : Char → Bool) : List Char → List Char → List (List Char)
  | [], acc => [acc.reverse]
  | c :: cs, acc =>
    if p c then acc.reverse :: splitPredAux p cs []
    else splitPredAux p cs (c :: acc)

/-- Python `s.split(sep)` for a one-character separator: split at every
occurrence, keeping empty pieces. -/
def pySplitOnChar (sep : Char) (s : String) : List String :=
  (splitPredAux (fun c => c = sep) s.data []).map String.mk

/-- Python `s.split()` (no argument): split on whitespace runs, dropping
empty pieces. -/
def pySplitWs (s : String) : List String :=
  ((splitPredAux pyIsSpace s.data []).map String.mk).filter (fun piece => piece ≠ "")

/-- Python `s.strip()`: drop leading and trailing whitespace. -/
def pyStrip (s : String) : String :=
  String.mk (((s.data.dropWhile pyIsSpace).reverse.dropWhile pyIsSpace).reverse)

/-- Python `s.lower()`. -/
def pyToLower (s : String) : String :=
  String.mk (s.data.map Char.toLower)

/-- Does `l` contain `sub` as a contiguous sublist? -/
def listContainsSub (sub : List Char) : List Char → Bool
  | [] => sub.isEmpty
  | c :: tl => pyStartsWithList sub (c :: tl) || listContainsSub sub tl

/-- Python `sub in s` substring test. -/
def pyInStr (sub s : String) : Bool :=
  listContainsSub sub.data s.data

/-- Python `dict.get` over an association list with exact string keys. -/
def dictGet (m : List (String × String)) (k : String) : Option String :=
  (m.find? (fun p => p.1 = k)).map (fun p => p.2)

/-- Lookup in an HTTP headers map.  HTTP header maps are case-insensitive
(the spec's "case-insensitive headers map"), so the lookup normalises the
key case on both sides. -/
def headerGet (m : List (String × String)) (k : String) : Option String :=
  (m.find? (fun p => pyToLower p.1 = pyToLower k)).map (fun p => p.2)

/-! ## `telemetry/otlp_exporter.py`: circuit breaker -/

/-- `CircuitBreakerConfig` (pydantic model): thresholds and timeouts,
times in milliseconds. -/
structure CircuitBreakerConfig where
  failure_threshold : Nat := 5
  reset_timeout : Int := 60000
  monitoring_period : Int := 10000
  deriving Repr, DecidableEq

/-- `CircuitState` enum. -/
inductive CircuitState where
  | CLOSED
  | OPEN
  | HALF_OPEN
  deriving Repr, DecidableEq

/-- The mutable state of a `CircuitBreaker` instance (`__init__` sets
`failures = 0`, `last_failure_time = 0`, `state = CLOSED`). -/
structure CircuitBreaker where
  config : CircuitBreakerConfig
  failures : Nat := 0
  last_failure_time : Int := 0
  state : CircuitState := .CLOSED
  deriving Repr, DecidableEq

/-- Behaviour of the guarded awaitable `operation()` if it gets invoked:
it either returns normally or raises. -/
inductive OpOutcome where
  | ok
  | fail
  deriving Repr, DecidableEq

/-- Failures produced by `CircuitBreaker.execute`: the breaker's own
"Circuit breaker is OPEN - dropping telemetry" exception, or the guarded
operation's re-raised exception. -/
inductive ExecError where
  | circuitOpen
  | opFailed
  deriving Repr, DecidableEq

/-- `CircuitBreaker._on_success`: reset the failure counter and close. -/
def CircuitBreaker.on_success (cb : CircuitBreaker) : CircuitBreaker :=
  { cb with failures := 0, state := .CLOSED }

/-- `CircuitBreaker._on_failure` at wall-clock time `now` (ms): bump the
failure counter, stamp the failure time, and open the circuit once the
counter reaches the threshold. -/
def CircuitBreaker.on_failure (cb : CircuitBreaker) (now : Int) : CircuitBreaker :=
  let failures := cb.failures + 1
  { cb with
      failures := failures
      last_failure_time := now
      state := if failures ≥ cb.config.failure_threshold then .OPEN else cb.state }

/-- `CircuitBreaker.execute` at wall-clock time `now`.  Returns the call
result (`Except`), the updated breaker state, and whether the guarded
operation was actually invoked. -/
def CircuitBreaker.execute (cb : CircuitBreaker) (now : Int) (op : OpOutcome) :
    Except ExecError Unit × CircuitBreaker × Bool :=
  if cb.state = .OPEN then
    if now - cb.last_failure_time > cb.config.reset_timeout then
      let cb := { cb with state := .HALF_OPEN }
      match op with
      | .ok => (.ok (), cb.on_success, true)
      | .fail => (.error .opFailed, cb.on_failure now, true)
    else
      (.error .circuitOpen, cb, false)
  else
    match op with
    | .ok => (.ok (), cb.on_success, true)
    | .fail => (.error .opFailed, cb.on_failure now, true)

/-- `create_circuit_breaker()`: breaker with the factory's default
configuration. -/
def create_circuit_breaker : CircuitBreaker :=
  { config :=
      { failure_threshold := 5
        reset_timeout := 60000
        monitoring_period := 10000 } }

/-! ## `telemetry/otlp_exporter.py`: resilient exporter -/

/-- `SpanExportResult` (from the OpenTelemetry SDK): only `SUCCESS` and
`FAILURE` are produced by this code. -/
inductive SpanExportResult where
  | SUCCESS
  | FAILURE
  deriving Repr, DecidableEq

/-- Behaviour of the underlying telemetry sink (`requests.post` inside
`MCPJsonOTLPExporter.export`): it responds with some HTTP status, raises
an exception, or times out (a timeout raises, too). -/
inductive SinkBehaviour where
  | responds (status : Nat)
  | raises
  | timesOut
  deriving Repr, DecidableEq

/-- `MCPJsonOTLPExporter.export`: returns `SUCCESS` exactly on an HTTP 200
response; any other status, any exception, and any timeout are caught and
reported as `FAILURE`. -/
def MCPJsonOTLPExporter.export (sink : SinkBehaviour) : SpanExportResult :=
  match sink with
  | .responds status => if status = 200 then .SUCCESS else .FAILURE
  | .raises => .FAILURE
  | .timesOut => .FAILURE

/-- `ResilientOTLPExporter._export_spans`: raises (here: `Except.error`)
whenever the inner exporter reports anything but `SUCCESS`. -/
def ResilientOTLPExporter.export_spans (sink : SinkBehaviour) : Except String Unit :=
  if MCPJsonOTLPExporter.export sink = SpanExportResult.SUCCESS then
    .ok ()
  else
    .error "Export failed"

/-- The mutable state of a `ResilientOTLPExporter` (`__init__` creates a
fresh default circuit breaker and clears the shutdown flag). -/
structure ResilientOTLPExporter where
  circuit_breaker : CircuitBreaker := create_circuit_breaker
  shutdown_flag : Bool := false
  deriving Repr, DecidableEq

/-- `ResilientOTLPExporter.export` at wall-clock time `now`, with the
sink behaving as `sink`.  Returns the (never-failing) call result, the
updated exporter state, whether the circuit breaker was consulted, and
whether the sink itself was invoked.  The source catches every exception
from `circuit_breaker.execute`, logs it, and returns normally. -/
def ResilientOTLPExporter.export {α : Type} (ex : ResilientOTLPExporter)
    (spans : List α) (now : Int) (sink : SinkBehaviour) :
    Except String Unit × ResilientOTLPExporter × Bool × Bool :=
  if spans.isEmpty || ex.shutdown_flag then
    (.ok (), ex, false, false)
  else
    let op : OpOutcome :=
      match ResilientOTLPExporter.export_spans sink with
      | .ok _ => .ok
      | .error _ => .fail
    let step := ex.circuit_breaker.execute now op
    match step.1 with
    | .ok _ => (.ok (), { ex with circuit_breaker := step.2.1 }, true, step.2.2)
    | .error _ => (.ok (), { ex with circuit_breaker := step.2.1 }, true, step.2.2)

/-- `ResilientOTLPExporter.shutdown`: sets the shutdown flag. -/
def ResilientOTLPExporter.shutdown (ex : ResilientOTLPExporter) : ResilientOTLPExporter :=
  { ex with shutdown_flag := true }

/-! ## `types.py`: data model -/

/-- `AuthContext` (pydantic model): authenticated user context built from a
validated OAuth token.  `expires_at` is milliseconds since the epoch. -/
structure AuthContext where
  user_id : String
  email : String
  name : Option String := none
  image : Option String := none
  scopes : List String := []
  client_id : String
  expires_at : Int
  deriving Repr, DecidableEq

/-! ## `oauth_validator.py`: token validation -/

/-- The `aud` claim of an introspection response: a string or a list of
strings (`string | string[]`). -/
inductive PyAud where
  | str (s : String)
  | list (l : List String)
  deriving Repr, DecidableEq

/-- The decoded JSON body of an introspection response.  Absent keys are
`none`; `mcp_user_id` models the `"mcp:user_id"` key. -/
structure IntrospectionBody where
  active : Bool := false
  scope : Option String := none
  sub : Option String := none
  mcp_user_id : Option String := none
  username : Option String := none
  name : Option String := none
  picture : Option String := none
  client_id : Option String := none
  exp : Option Int := none
  aud : Option PyAud := none
  deriving Repr, DecidableEq

/-- Behaviour of the outbound introspection HTTP call: it raises (network
error, timeout, malformed JSON, ...) or yields a response.  For
`OAuthTokenValidator` only success-ness matters (`response.is_success`);
for `McpObsTokenVerifier` the exact status code matters, so we carry it. -/
inductive IntrospectionOutcome where
  | raises
  | response (status : Nat) (body : IntrospectionBody)
  deriving Repr, DecidableEq

/-- Python `response.is_success`: status in `[200, 300)`. -/
def httpIsSuccess (status : Nat) : Bool :=
  200 ≤ status ∧ status < 300

/-- `OAuthTokenValidator.validate_token` at wall-clock time `now` (ms),
with the introspection call behaving as `outcome`.  Returns the
`AuthContext` for a valid token and `none` otherwise; the source wraps the
whole body in `try/except` returning `None`, so every failure mode maps to
`none`. -/
def OAuthTokenValidator.validate_token (now : Int) (outcome : IntrospectionOutcome) :
    Option AuthContext :=
  match outcome with
  | .raises => none
  | .response status introspection =>
    if !httpIsSuccess status then
      none
    else if !introspection.active then
      none
    else
      let user_id := pyStrOr (pyOrStr introspection.sub introspection.mcp_user_id) "unknown"
      let email := introspection.username.getD "unknown"
      let scopes :=
        if strTruthy introspection.scope then
          pySplitOnChar ' ' (introspection.scope.getD "")
        else
          []
      let client_id := introspection.client_id.getD "unknown"
      let expires_at :=
        match introspection.exp with
        | some e => if e ≠ 0 then e * 1000 else now + 3600000
        | none => now + 3600000
      some
        { user_id := user_id
          email := email
          name := introspection.name
          image := introspection.picture
          scopes := scopes
          client_id := client_id
          expires_at := expires_at }

/-- `OAuthTokenValidator.extract_bearer_token`: strip the `"Bearer "`
prefix from an Authorization header value, `none` when the header is
missing, empty, or not a bearer header. -/
def OAuthTokenValidator.extract_bearer_token (auth_header : Option String) : Option String :=
  match auth_header with
  | some s => if s ≠ "" ∧ pyStartsWith s "Bearer " then some (pyDrop s 7) else none
  | none => none

/-- `OAuthTokenValidator.has_required_scopes`: `all(scope in
auth_context.scopes for scope in required_scopes)`. -/
def OAuthTokenValidator.has_required_scopes (auth_context : AuthContext)
    (required_scopes : List String) : Bool :=
  required_scopes.all (fun scope => auth_context.scopes.contains scope)

/-! ## `oauth_middleware.py`: request model and middleware -/

/-- The duck-typed `request.params` object: `name` names the tool being
invoked, `authorization` is the fallback token location probed by
extraction method 3. -/
structure PyParams where
  name : Option String := none
  authorization : Option String := none
  deriving Repr, DecidableEq

/-- A duck-typed MCP request as probed by the middleware: optional
`headers` and `metadata` maps, optional `params` object, optional
top-level `authorization` field, and for the streamable-HTTP adapter a
session-scoped `authorization` and connection-scoped `headers`. -/
structure PyRequest where
  headers : Option (List (String × String)) := none
  metadata : Option (List (String × String)) := none
  params : Option PyParams := none
  authorization : Option String := none
  session_authorization : Option String := none
  connection_headers : Option (List (String × String)) := none
  deriving Repr, DecidableEq

/-- One probing step of `_extract_token_from_request`: given the header
value found at some location, return the bearer token if it is truthy and
parses, else fall through (`none`). -/
def tryAuthHeader (auth_header : Option String) : Option String :=
  if strTruthy auth_header then
    let token := OAuthTokenValidator.extract_bearer_token auth_header
    if strTruthy token then token else none
  else
    none

/-- `_extract_token_from_request`: probe, in order, the `headers` map
(HTTP), the `metadata` map (stdio), `params.authorization`, and the
top-level `authorization` field; return the first truthy bearer token. -/
def extract_token_from_request (request : PyRequest) : Option String :=
  let m1 :=
    match request.headers with
    | some headers =>
      if !headers.isEmpty then
        tryAuthHeader (pyOrStr (dictGet headers "authorization") (dictGet headers "Authorization"))
      else none
    | none => none
  match m1 with
  | some token => some token
  | none =>
    let m2 :=
      match request.metadata with
      | some metadata =>
        if !metadata.isEmpty then
          tryAuthHeader (pyOrStr (dictGet metadata "authorization") (dictGet metadata "Authorization"))
        else none
      | none => none
    match m2 with
    | some token => some token
    | none =>
      let m3 :=
        match request.params with
        | some params => tryAuthHeader params.authorization
        | none => none
      match m3 with
      | some token => some token
      | none => tryAuthHeader request.authorization

/-- The typed authentication failures raised by `with_oauth` as
`MCPError`s: `authRequired` and `invalidToken` carry fixed messages
(code `-32602`), `insufficientScope` (code `-32603`) carries the required
and granted scope lists that the source interpolates into its message. -/
inductive AuthFailure where
  | authRequired
  | invalidToken
  | insufficientScope (required : List String) (got : List String)
  deriving Repr, DecidableEq

/-- The `MCPError` payload (error code and message) for each failure,
exactly as raised by `with_oauth`. -/
def AuthFailure.toMCPError : AuthFailure → Int × String
  | .authRequired =>
    (-32602, "Authorization required. Include Bearer token in Authorization header.")
  | .invalidToken =>
    (-32602, "Invalid or expired OAuth token")
  | .insufficientScope required got =>
    (-32603, "Insufficient scopes. Required: " ++ String.intercalate ", " required ++
      ", Got: " ++ String.intercalate ", " got)

/-- `getattr(getattr(request, 'params', None), 'name', None)`: the name of
the tool being invoked. -/
def tool_name_of (request : PyRequest) : Option String :=
  match request.params with
  | some params => params.name
  | none => none

/-- `skip_validation_for and tool_name in skip_validation_for`: is this
request's tool in the exempt set? -/
def is_exempt (skip_validation_for : Option (List String)) (request : PyRequest) : Bool :=
  listTruthy skip_validation_for &&
    (match tool_name_of request with
     | some n => (skip_validation_for.getD []).contains n
     | none => false)

/-- The sentinel anonymous `AuthContext` built for exempt tools. -/
def anonymousContext (now : Int) : AuthContext :=
  { user_id := "anonymous"
    email := "anonymous@mcp-obs.com"
    scopes := []
    client_id := "anonymous"
    expires_at := now + 3600000 }

deriving instance DecidableEq for Except

/-- Result of the authentication part of `with_oauth`'s wrapper: the
`AuthContext` handed to the handler or the `MCPError` raised, plus flags
recording whether token extraction and remote validation were invoked. -/
structure WithOAuthResult where
  result : Except AuthFailure AuthContext
  extractorCalled : Bool
  validatorCalled : Bool
  deriving Repr, DecidableEq

/-- `with_oauth`'s wrapper at wall-clock time `now`.  `validate` is the
oracle for `validator.validate_token` (the remote introspection call);
`required_scopes` and `skip_validation_for` are the decorator's keyword
arguments (Python `None`-able lists, tested for truthiness). -/
def with_oauth (required_scopes skip_validation_for : Option (List String))
    (validate : String → Option AuthContext) (now : Int) (request : PyRequest) :
    WithOAuthResult :=
  if is_exempt skip_validation_for request then
    { result := .ok (anonymousContext now), extractorCalled := false, validatorCalled := false }
  else
    let token := extract_token_from_request request
    if !strTruthy token then
      { result := .error .authRequired, extractorCalled := true, validatorCalled := false }
    else
      match validate (token.getD "") with
      | none =>
        { result := .error .invalidToken, extractorCalled := true, validatorCalled := true }
      | some auth_context =>
        if listTruthy required_scopes &&
            !OAuthTokenValidator.has_required_scopes auth_context (required_scopes.getD []) then
          { result := .error (.insufficientScope (required_scopes.getD []) auth_context.scopes)
            extractorCalled := true
            validatorCalled := true }
        else
          { result := .ok auth_context, extractorCalled := true, validatorCalled := true }

/-- The `WWW-Authenticate` value built by `create_oauth_challenge_headers`. -/
def oauth_challenge_value (server_slug : String) : String :=
  let protocol := if pyInStr "localhost" server_slug then "http" else "https"
  let base_url :=
    if pyInStr "localhost" server_slug then server_slug else server_slug ++ ".mcp-obs.com"
  "Bearer resource_metadata=\"" ++ protocol ++ "://" ++ base_url ++
    "/.well-known/oauth-protected-resource\""

/-- `create_oauth_challenge_headers`: the challenge response headers for
HTTP transports. -/
def create_oauth_challenge_headers (server_slug : String) : List (String × String) :=
  [("WWW-Authenticate", oauth_challenge_value server_slug)]

/-! ## `transport_adapters.py`: HTTP adapter -/

/-- `HTTPOAuthAdapter.extract_token`: probe the request's (case-insensitive)
headers map for the Authorization entry and strip the `"Bearer "` prefix.
A total function: absence of a token is a normal `none`, never an error. -/
def HTTPOAuthAdapter.extract_token (request : PyRequest) : Option String :=
  match request.headers with
  | some headers =>
    if !headers.isEmpty then
      let auth_header := pyOrStr (headerGet headers "authorization") (headerGet headers "Authorization")
      match auth_header with
      | some s => if s ≠ "" ∧ pyStartsWith s "Bearer " then some (pyDrop s 7) else none
      | none => none
    else none
  | none => none

/-- An authentication failure as it leaves `HTTPOAuthAdapter.with_oauth`:
the original `MCPError` enhanced with the OAuth challenge response
headers. -/
structure HTTPAuthFailure where
  error : AuthFailure
  headers : List (String × String)
  deriving Repr, DecidableEq

/-- `HTTPOAuthAdapter.with_oauth`'s wrapper: run the shared `with_oauth`
wrapper; on any exception, attach the challenge headers built from the
configured server slug (the fresh `MCPError` has no prior headers, so the
merged dict is exactly the challenge headers) and re-raise. -/
def HTTPOAuthAdapter_with_oauth (server_slug : String)
    (required_scopes skip_validation_for : Option (List String))
    (validate : String → Option AuthContext) (now : Int) (request : PyRequest) :
    Except HTTPAuthFailure AuthContext × Bool × Bool :=
  let r := with_oauth required_scopes skip_validation_for validate now request
  match r.result with
  | .ok auth_context => (.ok auth_context, r.extractorCalled, r.validatorCalled)
  | .error e =>
    (.error { error := e, headers := create_oauth_challenge_headers server_slug },
      r.extractorCalled, r.validatorCalled)

/-! ## `fastmcp_integration.py`: token verifier -/

/-- `AccessToken` (from the MCP SDK) as populated by
`McpObsTokenVerifier.verify_token`. -/
structure AccessToken where
  token : String
  client_id : String
  scopes : List String
  expires_at : Option Int
  resource : Option PyAud
  deriving Repr, DecidableEq

/-- `McpObsTokenVerifier._validate_resource`: the token's `aud` claim must
name this resource server (RFC 8707). -/
def McpObsTokenVerifier.validate_resource_claim (server_url : String)
    (token_data_aud : Option PyAud) : Bool :=
  match token_data_aud with
  | none => false
  | some (.str a) => a = server_url
  | some (.list l) => l.contains server_url

/-- `McpObsTokenVerifier.verify_token` with the introspection call
behaving as `outcome`.  `validate_resource` and `server_url` come from the
verifier's construction; the whole body is wrapped in `try/except`
returning `None`.  Scope parsing (lines 90-99): if the scope string
contains a comma, split on commas and strip each piece; otherwise split on
whitespace. -/
def McpObsTokenVerifier.verify_token (validate_resource : Bool) (server_url : String)
    (token : String) (outcome : IntrospectionOutcome) : Option AccessToken :=
  match outcome with
  | .raises => none
  | .response status data =>
    if status ≠ 200 then
      none
    else if !data.active then
      none
    else if validate_resource &&
        !McpObsTokenVerifier.validate_resource_claim server_url data.aud then
      none
    else
      let scope_string := data.scope.getD ""
      let scopes :=
        if scope_string ≠ "" then
          if pyInStr "," scope_string then
            (pySplitOnChar ',' scope_string).map pyStrip
          else
            pySplitWs scope_string
        else
          []
      some
        { token := token
          client_id := data.client_id.getD "unknown"
          scopes := scopes
          expires_at := data.exp
          resource := data.aud }

/-! ## Drivers used by the lifecycle statements -/

/-- Run a sequence of guarded calls that all fail, at the given wall-clock
times, threading the breaker state. -/
def runFails (cb : CircuitBreaker) : List Int → CircuitBreaker
  | [] => cb
  | t :: ts => runFails (cb.execute t .fail).2.1 ts

/-- The breaker produced by `create_circuit_breaker()` after five
consecutive guarded-call failures at times `t1 ≤ ... ≤ t5`. -/
def lifecycleAfterFive (t1 t2 t3 t4 t5 : Int) : CircuitBreaker :=
  runFails create_circuit_breaker [t1, t2, t3, t4, t5]

/-! ## Theorems -/

/-- Claim C1: for every batch of spans and every behaviour of the
underlying sink (success, raised exception, timeout, or the circuit
breaker already being OPEN and rejecting the call),
`ResilientOTLPExporter.export` returns normally and never raises or
propagates any exception to its caller. -/
theorem resilient_export_never_raises {α : Type} (ex : ResilientOTLPExporter)
    (spans : List α) (now : Int) (sink : SinkBehaviour) :
    (ex.export spans now sink).1 = .ok () := by
  unfold ResilientOTLPExporter.export
  split
  · rfl
  · dsimp only
    split <;> rfl

/-- Claim C2: whenever `CircuitBreaker.execute` is invoked while the state
is OPEN and `now - last_failure_time` has not exceeded `reset_timeout`,
the guarded operation is not invoked and the call fails with the
circuit-open failure, leaving the breaker state unchanged. -/
theorem circuit_open_rejects_within_timeout (cb : CircuitBreaker) (now : Int) (op : OpOutcome)
    (hopen : cb.state = .OPEN)
    (htime : now - cb.last_failure_time ≤ cb.config.reset_timeout) :
    cb.execute now op = (.error .circuitOpen, cb, false) := by
  unfold CircuitBreaker.execute
  rw [if_pos hopen, if_neg (by omega)]

/-- Witness for C2: a breaker that opened at time 0 rejects a call at time
1000 (within the 60000 ms reset timeout) without touching its state. -/
theorem circuit_open_rejects_within_timeout_witness :
    ({ config := {}, failures := 5, last_failure_time := 0, state := .OPEN } : CircuitBreaker).state
        = .OPEN ∧
    (1000 : Int) - 0 ≤ (60000 : Int) ∧
    CircuitBreaker.execute { config := {}, failures := 5, last_failure_time := 0, state := .OPEN }
        1000 .ok =
      (.error .circuitOpen,
        { config := {}, failures := 5, last_failure_time := 0, state := .OPEN }, false) :=
  ⟨rfl, by decide,
    circuit_open_rejects_within_timeout
      { config := {}, failures := 5, last_failure_time := 0, state := .OPEN } 1000 .ok rfl
      (by decide)⟩

/-- Claim C10: an `export` call with an empty span batch, or made after
shutdown, returns immediately without invoking the circuit breaker or the
sink, leaving the breaker state (failure counter, last-failure timestamp,
circuit state) unchanged. -/
theorem export_noop_when_empty_or_shutdown {α : Type} (ex : ResilientOTLPExporter)
    (spans : List α) (now : Int) (sink : SinkBehaviour)
    (h : spans = [] ∨ ex.shutdown_flag = true) :
    ex.export spans now sink = (.ok (), ex, false, false) := by
  unfold ResilientOTLPExporter.export
  have hc : (spans.isEmpty || ex.shutdown_flag) = true := by
    rcases h with h | h
    · subst h; rfl
    · simp [h]
  rw [if_pos hc]

/-- Witness for C10: exporting an empty batch leaves a fresh exporter
untouched, and exporting after `shutdown` leaves the state untouched. -/
theorem export_noop_when_empty_or_shutdown_witness :
    ResilientOTLPExporter.export {} ([] : List Nat) 0 .raises = (.ok (), {}, false, false) ∧
    ResilientOTLPExporter.export (ResilientOTLPExporter.shutdown {}) ([0] : List Nat) 5
        (.responds 200) =
      (.ok (), ResilientOTLPExporter.shutdown {}, false, false) :=
  ⟨export_noop_when_empty_or_shutdown {} [] 0 .raises (Or.inl rfl),
   export_noop_when_empty_or_shutdown (ResilientOTLPExporter.shutdown {}) [0] 5 (.responds 200)
     (Or.inr rfl)⟩

/-- Claim C3: the circuit-breaker lifecycle with the factory defaults
(threshold 5, reset timeout 60000 ms).  Starting from CLOSED, after five
consecutive guarded-call failures the state is OPEN with the timestamp of
the fifth failure; a call within the reset timeout fails without invoking
the dependency; once the reset timeout has elapsed the next call is let
through (HALF_OPEN trial): a success there transitions to CLOSED with the
failure counter reset to 0, while a failure transitions back to OPEN and
resets the failure timer, so a further call within the new timeout is
again rejected without invoking the dependency. -/
theorem circuit_breaker_lifecycle (t1 t2 t3 t4 t5 t6 t7 t8 : Int) (op op8 : OpOutcome)
    (h6 : t6 - t5 ≤ 60000) (h7 : t7 - t5 > 60000) (h8 : t8 - t7 ≤ 60000) :
    lifecycleAfterFive t1 t2 t3 t4 t5 =
      { config := create_circuit_breaker.config, failures := 5, last_failure_time := t5,
        state := .OPEN } ∧
    CircuitBreaker.execute
        { config := create_circuit_breaker.config, failures := 5, last_failure_time := t5,
          state := .OPEN } t6 op =
      (.error .circuitOpen,
        { config := create_circuit_breaker.config, failures := 5, last_failure_time := t5,
          state := .OPEN }, false) ∧
    CircuitBreaker.execute
        { config := create_circuit_breaker.config, failures := 5, last_failure_time := t5,
          state := .OPEN } t7 .ok =
      (.ok (),
        { config := create_circuit_breaker.config, failures := 0, last_failure_time := t5,
          state := .CLOSED }, true) ∧
    CircuitBreaker.execute
        { config := create_circuit_breaker.config, failures := 5, last_failure_time := t5,
          state := .OPEN } t7 .fail =
      (.error .opFailed,
        { config := create_circuit_breaker.config, failures := 6, last_failure_time := t7,
          state := .OPEN }, true) ∧
    CircuitBreaker.execute
        { config := create_circuit_breaker.config, failures := 6, last_failure_time := t7,
          state := .OPEN } t8 op8 =
      (.error .circuitOpen,
        { config := create_circuit_breaker.config, failures := 6, last_failure_time := t7,
          state := .OPEN }, false) := by
  refine ⟨?_, ?_, ?_, ?_, ?_⟩
  · simp [lifecycleAfterFive, runFails, CircuitBreaker.execute, CircuitBreaker.on_failure,
      create_circuit_breaker]
  · unfold CircuitBreaker.execute
    rw [if_pos rfl, if_neg (by simp [create_circuit_breaker]; omega)]
  · unfold CircuitBreaker.execute
    rw [if_pos rfl, if_pos (by simp [create_circuit_breaker]; omega)]
    rfl
  · unfold CircuitBreaker.execute
    rw [if_pos rfl, if_pos (by simp [create_circuit_breaker]; omega)]
    rfl
  · unfold CircuitBreaker.execute
    rw [if_pos rfl, if_neg (by simp [create_circuit_breaker]; omega)]

/-- Witness for C3: the lifecycle run at concrete times 1..5 (failures),
6 (rejected), 70000 (trial), 70001 (rejected after a failed trial). -/
theorem circuit_breaker_lifecycle_witness :
    ((6 : Int) - 5 ≤ 60000 ∧ (70000 : Int) - 5 > 60000 ∧ (70001 : Int) - 70000 ≤ 60000) ∧
    lifecycleAfterFive 1 2 3 4 5 =
      { config := create_circuit_breaker.config, failures := 5, last_failure_time := 5,
        state := .OPEN } ∧
    CircuitBreaker.execute
        { config := create_circuit_breaker.config, failures := 5, last_failure_time := 5,
          state := .OPEN } 70000 .ok =
      (.ok (),
        { config := create_circuit_breaker.config, failures := 0, last_failure_time := 5,
          state := .CLOSED }, true) :=
  ⟨⟨by decide, by decide, by decide⟩,
   (circuit_breaker_lifecycle 1 2 3 4 5 6 70000 70001 .ok .fail (by decide) (by decide)
      (by decide)).1,
   (circuit_breaker_lifecycle 1 2 3 4 5 6 70000 70001 .ok .fail (by decide) (by decide)
      (by decide)).2.2.1⟩

/-- Claim C7: `OAuthTokenValidator.validate_token` returns the same
`none` ("invalid") result whenever the introspection call raises or times
out, the response status is not a success, or the body has
`active = false`; consequently an `AuthContext` is never constructed from
a response that is not a success with `active = true`. -/
theorem validate_token_invalid_uniform (now : Int) (status : Nat) (body : IntrospectionBody)
    (h : httpIsSuccess status = false ∨ body.active = false) :
    OAuthTokenValidator.validate_token now (.response status body) = none ∧
    OAuthTokenValidator.validate_token now .raises = none := by
  refine ⟨?_, rfl⟩
  unfold OAuthTokenValidator.validate_token
  rcases h with h | h
  · simp [h]
  · cases hs : httpIsSuccess status
    · simp [hs]
    · simp [h]

/-- Witness for C7: an HTTP 500 response and an `active = false` body both
yield `none`. -/
theorem validate_token_invalid_uniform_witness :
    (httpIsSuccess 500 = false ∨ ({ active := true } : IntrospectionBody).active = false) ∧
    (httpIsSuccess 200 = false ∨ ({ active := false } : IntrospectionBody).active = false) ∧
    OAuthTokenValidator.validate_token 0 (.response 500 { active := true }) = none ∧
    OAuthTokenValidator.validate_token 0 (.response 200 { active := false }) = none :=
  ⟨Or.inl (by decide), Or.inr rfl,
   (validate_token_invalid_uniform 0 500 { active := true } (Or.inl (by decide))).1,
   (validate_token_invalid_uniform 0 200 { active := false } (Or.inr rfl)).1⟩

/-- Counterexample for C4: the claim states that for every scope string a
comma triggers comma-splitting, so that `"read,write"` yields the scope
set `{read, write}` in the resulting authenticated context.  But
`OAuthTokenValidator.validate_token` splits the scope string on single
spaces only: on a successful, active introspection response with scope
string `"read,write"` the resulting `AuthContext` carries the single
scope `"read,write"`, not `{read, write}`. -/
theorem scope_parsing_counterexample :
    (OAuthTokenValidator.validate_token 0
        (.response 200 { active := true, scope := some "read,write" })).map AuthContext.scopes
      = some ["read,write"] ∧
    (["read,write"] : List String) ≠ ["read", "write"] := by
  constructor
  · decide
  · decide

/-- Claim C4 as amended: the comma-vs-whitespace heuristic lives in
`McpObsTokenVerifier.verify_token` (fastmcp integration), where both
`"read,write"` and `"read write"` yield the scopes `[read, write]`;
`OAuthTokenValidator.validate_token` instead splits on single spaces
only, so `"read write"` yields `[read, write]` there but `"read,write"`
yields the single scope `"read,write"`. -/
theorem scope_parsing_amended :
    (McpObsTokenVerifier.verify_token false "srv" "tok"
        (.response 200 { active := true, scope := some "read,write" })).map AccessToken.scopes
      = some ["read", "write"] ∧
    (McpObsTokenVerifier.verify_token false "srv" "tok"
        (.response 200 { active := true, scope := some "read write" })).map AccessToken.scopes
      = some ["read", "write"] ∧
    (OAuthTokenValidator.validate_token 0
        (.response 200 { active := true, scope := some "read write" })).map AuthContext.scopes
      = some ["read", "write"] ∧
    (OAuthTokenValidator.validate_token 0
        (.response 200 { active := true, scope := some "read,write" })).map AuthContext.scopes
      = some ["read,write"] := by
  refine ⟨by decide, by decide, by decide, by decide⟩

/-- Counterexample for C6: the claim states that for granted scopes
`{read}` and required scopes `{read, write}` the failure carries the
missing list `[write]`.  The middleware does fail with the insufficient-
scope `MCPError`, but the data it carries (and interpolates into its
message) is the full required list `[read, write]` together with the
granted list `[read]` — not the missing list `[write]`. -/
theorem insufficient_scope_counterexample :
    (with_oauth (some ["read", "write"]) none
        (fun _ => some { user_id := "u", email := "e", scopes := ["read"], client_id := "c",
                         expires_at := 0 })
        0 { headers := some [("Authorization", "Bearer tok")] }).result
      = .error (.insufficientScope ["read", "write"] ["read"]) ∧
    AuthFailure.insufficientScope ["read", "write"] ["read"] ≠
      AuthFailure.insufficientScope ["write"] ["read"] := by
  refine ⟨by decide, by decide⟩

/-- Claim C6 as amended: the scope check is a subset test over the granted
and required scope sets; when any required scope is absent, authenticate
fails with the insufficient-scope failure carrying the full required list
and the granted list, from which the missing scopes are the difference:
for granted `{read}` and required `{read, write}` the failure carries
required `[read, write]` and granted `[read]`, and the missing scopes
(required minus granted) are `[write]`. -/
theorem insufficient_scope_amended :
    (∀ (ctx : AuthContext) (required : List String),
        OAuthTokenValidator.has_required_scopes ctx required = true ↔
          ∀ s ∈ required, s ∈ ctx.scopes) ∧
    (with_oauth (some ["read", "write"]) none
        (fun _ => some { user_id := "u", email := "e", scopes := ["read"], client_id := "c",
                         expires_at := 0 })
        0 { headers := some [("Authorization", "Bearer tok")] }).result
      = .error (.insufficientScope ["read", "write"] ["read"]) ∧
    (["read", "write"].filter (fun s => !(["read"] : List String).contains s)) = ["write"] := by
  refine ⟨?_, by decide, by decide⟩
  intro ctx required
  simp [OAuthTokenValidator.has_required_scopes, List.all_eq_true]

/-- Witness for C6's amended theorem: the subset test instantiated at the
claim's concrete scenario — granted `{read}` does not cover required
`{read, write}`, while granted `{read, write}` does. -/
theorem insufficient_scope_amended_witness :
    OAuthTokenValidator.has_required_scopes
        { user_id := "u", email := "e", scopes := ["read"], client_id := "c", expires_at := 0 }
        ["read", "write"] = false ∧
    OAuthTokenValidator.has_required_scopes
        { user_id := "u", email := "e", scopes := ["read", "write"], client_id := "c",
          expires_at := 0 }
        ["read", "write"] = true := by
  constructor
  · have h := (insufficient_scope_amended.1
      { user_id := "u", email := "e", scopes := ["read"], client_id := "c", expires_at := 0 }
      ["read", "write"])
    by_contra hc
    exact absurd (h.mp (by revert hc; decide)) (by decide)
  · exact (insufficient_scope_amended.1
      { user_id := "u", email := "e", scopes := ["read", "write"], client_id := "c",
        expires_at := 0 }
      ["read", "write"]).mpr (by decide)

/-- Claim C8: for a request whose tool name is in the exempt set,
`with_oauth` returns the sentinel anonymous `AuthContext` (fixed identity
`anonymous`, empty scope set) — never the authorization-required failure —
and does so without invoking token extraction or remote validation (the
result is the same for every validation oracle and every token material
in the request). -/
theorem exempt_tool_yields_anonymous (required_scopes : Option (List String))
    (skips : List String) (validate : String → Option AuthContext) (now : Int)
    (request : PyRequest) (p : PyParams) (n : String)
    (hp : request.params = some p) (hn : p.name = some n)
    (hmem : skips.contains n = true) :
    with_oauth required_scopes (some skips) validate now request =
      { result := .ok (anonymousContext now), extractorCalled := false,
        validatorCalled := false } ∧
    (anonymousContext now).user_id = "anonymous" ∧
    (anonymousContext now).scopes = [] := by
  have hex : is_exempt (some skips) request = true := by
    have hne : skips.isEmpty = false := by
      cases skips
      · simp at hmem
      · rfl
    simp [is_exempt, tool_name_of, listTruthy, hp, hn, hne]
    simpa using hmem
  refine ⟨?_, rfl, rfl⟩
  unfold with_oauth
  rw [if_pos hex]

/-- Witness for C8: with exempt set `{"ping"}` and a token-free request
invoking `"ping"`, authentication yields the anonymous context without
calling the extractor or the validator. -/
theorem exempt_tool_yields_anonymous_witness :
    ({ params := some { name := some "ping" } } : PyRequest).params
        = some { name := some "ping" } ∧
    (["ping"] : List String).contains "ping" = true ∧
    with_oauth none (some ["ping"]) (fun _ => none) 42
        { params := some { name := some "ping" } } =
      { result := .ok (anonymousContext 42), extractorCalled := false,
        validatorCalled := false } :=
  ⟨rfl, by decide,
   (exempt_tool_yields_anonymous none ["ping"] (fun _ => none) 42
      { params := some { name := some "ping" } } { name := some "ping" } "ping"
      rfl rfl (by decide)).1⟩

/-- Helper: Python `a or a` is `a` for optional strings. -/
theorem pyOrStr_self (a : Option String) : pyOrStr a a = a := by
  unfold pyOrStr
  split <;> rfl

/-- Helper: header lookup only depends on the lower-cased key. -/
theorem headerGet_key_congr (m : List (String × String)) (k k' : String)
    (h : pyToLower k = pyToLower k') : headerGet m k = headerGet m k' := by
  unfold headerGet
  rw [h]

/-- Claim C5: a request with no extractable bearer token and a tool not in
the exempt set fails with the authorization-required failure; and through
the HTTP adapter every failure — in particular authorization-required and
invalid-token — carries the `WWW-Authenticate` challenge header derived
from the configured server slug. -/
theorem no_token_fails_auth_required_with_challenge (server_slug : String)
    (required_scopes skip_validation_for : Option (List String))
    (validate : String → Option AuthContext) (now : Int) (request : PyRequest)
    (hexempt : is_exempt skip_validation_for request = false)
    (htoken : extract_token_from_request request = none) :
    (with_oauth required_scopes skip_validation_for validate now request).result
      = .error .authRequired ∧
    (HTTPOAuthAdapter_with_oauth server_slug required_scopes skip_validation_for validate now
        request).1
      = .error { error := .authRequired,
                 headers := [("WWW-Authenticate", oauth_challenge_value server_slug)] } ∧
    ∀ (request2 : PyRequest) (hf : HTTPAuthFailure),
      (HTTPOAuthAdapter_with_oauth server_slug required_scopes skip_validation_for validate now
          request2).1 = .error hf →
      ("WWW-Authenticate", oauth_challenge_value server_slug) ∈ hf.headers := by
  have h1 : (with_oauth required_scopes skip_validation_for validate now request).result
      = .error .authRequired := by
    unfold with_oauth
    rw [if_neg (by simp [hexempt]), htoken]
    rfl
  refine ⟨h1, ?_, ?_⟩
  · unfold HTTPOAuthAdapter_with_oauth
    dsimp only
    rw [h1]
    rfl
  · intro request2 hf h
    unfold HTTPOAuthAdapter_with_oauth at h
    dsimp only at h
    rcases hres : (with_oauth required_scopes skip_validation_for validate now request2).result
      with e | ctx
    · rw [hres] at h
      simp only at h
      cases h
      simp [create_oauth_challenge_headers]
    · rw [hres] at h
      simp at h

/-- Witness for C5: an empty request against an empty exempt set fails
with the authorization-required failure and, through the HTTP adapter for
slug `test`, carries the challenge header pointing at the discovery
document. -/
theorem no_token_fails_auth_required_with_challenge_witness :
    is_exempt none ({} : PyRequest) = false ∧
    extract_token_from_request {} = none ∧
    (with_oauth none none (fun _ => none) 0 {}).result = .error .authRequired ∧
    (HTTPOAuthAdapter_with_oauth "test" none none (fun _ => none) 0 {}).1 =
      .error { error := .authRequired,
               headers := [("WWW-Authenticate", oauth_challenge_value "test")] } ∧
    oauth_challenge_value "test" =
      "Bearer resource_metadata=\"https://test.mcp-obs.com/.well-known/oauth-protected-resource\"" :=
  ⟨rfl, rfl,
   (no_token_fails_auth_required_with_challenge "test" none none (fun _ => none) 0 {}
      rfl rfl).1,
   (no_token_fails_auth_required_with_challenge "test" none none (fun _ => none) 0 {}
      rfl rfl).2.1,
   by decide⟩

/-- Claim C9: HTTP-variant token extraction probes the case-insensitive
headers map for the Authorization entry; when the value found starts with
`"Bearer "` the token is returned with the prefix stripped, otherwise the
result is `none`; when no entry is found, or the request has no headers
map at all, the result is the normal `none` — extraction is a total
function and never raises. -/
theorem http_extract_token_correct (request : PyRequest)
    (headers : List (String × String)) (v : String)
    (hr : request.headers = some headers) :
    (headerGet headers "authorization" = headerGet headers "Authorization") ∧
    (headerGet headers "authorization" = some v →
      HTTPOAuthAdapter.extract_token request =
        if v ≠ "" ∧ pyStartsWith v "Bearer " then some (pyDrop v 7) else none) ∧
    (headerGet headers "authorization" = none →
      HTTPOAuthAdapter.extract_token request = none) ∧
    HTTPOAuthAdapter.extract_token { request with headers := none } = none := by
  have hcase : headerGet headers "Authorization" = headerGet headers "authorization" :=
    headerGet_key_congr headers "Authorization" "authorization" rfl
  refine ⟨hcase.symm, ?_, ?_, rfl⟩
  · intro h
    have hne : headers.isEmpty = false := by
      cases headers
      · simp [headerGet] at h
      · rfl
    unfold HTTPOAuthAdapter.extract_token
    rw [hr]
    simp only [hne, Bool.not_false, if_true]
    rw [hcase, h, pyOrStr_self]
  · intro h
    unfold HTTPOAuthAdapter.extract_token
    rw [hr]
    cases hne : headers.isEmpty
    · simp only [hne, Bool.not_false, if_true]
      rw [hcase, h, pyOrStr_self]
    · simp [hne]

/-- Witness for C9: a headers map whose Authorization entry is spelled in
a different case still yields the stripped bearer token, and a bare
request yields `none`. -/
theorem http_extract_token_correct_witness :
    headerGet [("AUTHORIZATION", "Bearer abc123")] "authorization" = some "Bearer abc123" ∧
    HTTPOAuthAdapter.extract_token { headers := some [("AUTHORIZATION", "Bearer abc123")] } =
      some "abc123" ∧
    HTTPOAuthAdapter.extract_token
        { ({ headers := some [("AUTHORIZATION", "Bearer abc123")] } : PyRequest) with
          headers := none } = none :=
  ⟨by decide,
   by
    have h := (http_extract_token_correct { headers := some [("AUTHORIZATION", "Bearer abc123")] }
      [("AUTHORIZATION", "Bearer abc123")] "Bearer abc123" rfl).2.1 (by decide)
    rw [h]
    decide,
   (http_extract_token_correct { headers := some [("AUTHORIZATION", "Bearer abc123")] }
      [("AUTHORIZATION", "Bearer abc123")] "Bearer abc123" rfl).2.2.2⟩
